import Mathlib

/-!
Shallow embedding of the ADC sensor polling core (`ADCSensor.cpp`):
the scaling/parsing value pipeline (`std::stof` followed by the fixed
unit scaling and the per-channel scale factor), the threshold engine
(`check_thresholds` / `assert_thresholds`), the change-suppressed
publish (`update_value`), and the read/reopen/timer poll loop
(`handle_response`).

Modelling conventions:
* IEEE floating-point values are modelled exactly: a value is either
  the quiet-NaN sentinel, one of the two infinities, or an exact
  rational.  Machine rounding of in-range finite values is idealised
  as exact; overflow past the largest finite `float` is modelled (it
  produces an infinity), as is the `std::out_of_range` overflow check
  performed by `std::stof` itself.  Gradual underflow is idealised as
  exact (no `out_of_range` on tiny values).
* `std::stof` is modelled for decimal inputs: optional leading
  whitespace, optional sign, digits with an optional fractional part
  and an optional decimal exponent, plus the `inf`/`infinity`/`nan`
  keyword forms (case-insensitive), parsing the longest valid prefix.
  Hexadecimal float literals are not modelled.
* The `size_t` consecutive-error counter is modelled as `Nat`
  (its 2^64 wraparound is unreachable on any realistic trace).
* One invocation of `handle_response` (one poll cycle) is a pure step
  function; the asynchronous environment (read outcome, whether the
  `open` after the unconditional close succeeds, whether the armed
  timer is observed as `operation_aborted`) is its input, and the
  externally visible D-Bus `set_property` calls are its output event
  list.
-/

/-- `SENSOR_POLL_MS` from `ADCSensor.cpp`: the fixed rearm interval. -/
def SENSOR_POLL_MS : Nat := 500

/-- `WARN_AFTER_ERROR_COUNT` from `ADCSensor.cpp`. -/
def WARN_AFTER_ERROR_COUNT : Nat := 10

/-- `SENSOR_SCALE_FACTOR` from `ADCSensor.cpp` (an `unsigned int`,
used only after conversion to floating point, hence modelled in ℚ). -/
def SENSOR_SCALE_FACTOR : ℚ := 1000

/-- Largest finite `float` value, `FLT_MAX` = (2 − 2⁻²³)·2¹²⁷. -/
def FLT_MAX : ℚ := 340282346638528859811704183484516925440

/-- An IEEE `float`/`double` value as stored in the sensor pipeline:
quiet NaN, an infinity, or an exact finite value. -/
inductive Val
  | nan
  | inf
  | ninf
  | num (q : ℚ)
  deriving DecidableEq

/-- IEEE `!=` on values: true whenever either side is NaN, otherwise
numeric disequality (the three-valued sign model has no -0/+0 split:
ℚ identifies them, exactly as IEEE `==` does). -/
def Val.vne : Val → Val → Bool
  | .nan, _ => true
  | _, .nan => true
  | .inf, .inf => false
  | .ninf, .ninf => false
  | .num a, .num b => decide (a ≠ b)
  | _, _ => true

/-- IEEE `>` against a finite threshold value: NaN compares false. -/
def Val.vgt : Val → ℚ → Bool
  | .nan, _ => false
  | .inf, _ => true
  | .ninf, _ => false
  | .num a, t => decide (t < a)

/-- IEEE `<` against a finite threshold value: NaN compares false. -/
def Val.vlt : Val → ℚ → Bool
  | .nan, _ => false
  | .inf, _ => false
  | .ninf, _ => true
  | .num a, t => decide (a < t)

/-- Rounding of an exact quotient into the `float` range: values past
the largest finite float overflow to an infinity, in-range values are
kept exact (idealised rounding). -/
def fRound (q : ℚ) : Val :=
  if FLT_MAX < q then Val.inf
  else if q < -FLT_MAX then Val.ninf
  else Val.num q

/-- IEEE division of a pipeline value by a finite divisor (the two
divisions `nvalue / SENSOR_SCALE_FACTOR` and `... / scale_factor`).
The exact quotient is formed with `Rat.divInt` on the integer parts
(kernel-computable), then pushed through the float range. -/
def Val.vdiv : Val → ℚ → Val
  | .nan, _ => .nan
  | .inf, k => if k < 0 then .ninf else .inf
  | .ninf, k => if k < 0 then .inf else .ninf
  | .num a, k =>
    if k = 0 then
      (if a = 0 then .nan else if a < 0 then .ninf else .inf)
    else
      fRound (Rat.divInt (a.num * (k.den : Int)) ((a.den : Int) * k.num))

/-- Outcome of `std::stof` on one raw sample line. -/
inductive ParseOutcome
  | ok (v : Val)
  | invalid
  | outOfRange
  deriving DecidableEq

/-- Whitespace skipped by `strtof` before the subject sequence. -/
def isSpaceChar (c : Char) : Bool :=
  c = ' ' || c = '\t' || c = '\n' || c = '\r'

/-- Consume a maximal run of decimal digits, returning their value,
how many there were, and the remaining characters. -/
def parseDigits : List Char → Nat → Nat → Nat × Nat × List Char
  | c :: rest, acc, n =>
    if c.isDigit then parseDigits rest (acc * 10 + (c.toNat - 48)) (n + 1)
    else (acc, n, c :: rest)
  | [], acc, n => (acc, n, [])

/-- Consume an optional sign, returning whether it was negative. -/
def parseSign : List Char → Bool × List Char
  | '-' :: rest => (true, rest)
  | '+' :: rest => (false, rest)
  | cs => (false, cs)

/-- Case-insensitive keyword test at the head of the input
(for the `inf`/`nan` forms accepted by `strtof`). -/
def keywordAt (kw : List Char) (cs : List Char) : Bool :=
  (cs.take kw.length).map Char.toLower == kw

/-- Model of `std::stof` on the extracted line (see the header note
for the modelled grammar).  `invalid` is `std::invalid_argument`
(no conversion could be performed); `outOfRange` is
`std::out_of_range` (the converted value falls outside the finite
`float` range). -/
def stof (response : List Char) : ParseOutcome :=
  let cs := response.dropWhile isSpaceChar
  let sr := parseSign cs
  let neg := sr.1
  let cs1 := sr.2
  if keywordAt ['i', 'n', 'f'] cs1 then
    ParseOutcome.ok (if neg then Val.ninf else Val.inf)
  else if keywordAt ['n', 'a', 'n'] cs1 then
    ParseOutcome.ok Val.nan
  else
    let ipr := parseDigits cs1 0 0
    let ip := ipr.1
    let n1 := ipr.2.1
    let r1 := ipr.2.2
    let fpr :=
      match r1 with
      | '.' :: rest => parseDigits rest 0 0
      | _ => (0, 0, r1)
    let fp := fpr.1
    let n2 := fpr.2.1
    let r2 := fpr.2.2
    if n1 + n2 = 0 then
      ParseOutcome.invalid
    else
      let er :=
        match r2 with
        | c :: rest =>
          if c = 'e' || c = 'E' then
            let s2 := parseSign rest
            let dr := parseDigits s2.2 0 0
            (s2.1, dr.1, dr.2.1)
          else (false, 0, 0)
        | [] => (false, 0, 0)
      let e : Int := if er.2.2 = 0 then 0
        else if er.1 then -(er.2.1 : Int) else (er.2.1 : Int)
      let mant : Nat := ip * 10 ^ n2 + fp
      let sgn : Int := if neg then -1 else 1
      let q : ℚ := Rat.divInt (sgn * (mant : Int) * 10 ^ e.toNat)
        ((10 : Int) ^ (n2 + (-e).toNat))
      if FLT_MAX < q then ParseOutcome.outOfRange
      else if q < -FLT_MAX then ParseOutcome.outOfRange
      else ParseOutcome.ok (Val.num q)

/-- `thresholds::Level`. -/
inductive Level
  | WARNING
  | CRITICAL
  deriving DecidableEq

/-- `thresholds::Direction`. -/
inductive Direction
  | HIGH
  | LOW
  deriving DecidableEq

/-- One `thresholds::Threshold` entry: level, direction, trip value. -/
structure Threshold where
  level : Level
  direction : Direction
  value : ℚ
  deriving DecidableEq

/-- An externally visible `set_property` call made by the sensor:
either the `Value` property or one of the four alarm properties. -/
inductive PubEvent
  | pubValue (v : Val)
  | pubAlarm (level : Level) (direction : Direction) (asserted : Bool)
  deriving DecidableEq

/-- The `ADCSensor` state relevant to the polling core: the per-channel
scale factor and threshold set fixed at construction, the current
`value` member, and the consecutive-error counter. -/
structure ADCSensor where
  scale_factor : ℚ
  thresholds : List Threshold
  value : Val
  err_count : Nat
  deriving DecidableEq

/-- The constructor's initialisation of the polling state:
`value(std::numeric_limits<double>::quiet_NaN()), err_count(0)`. -/
def ADCSensor.init (scale_factor : ℚ) (thresholds : List Threshold) :
    ADCSensor :=
  { scale_factor := scale_factor, thresholds := thresholds,
    value := Val.nan, err_count := 0 }

/-- `ADCSensor::assert_thresholds`: maps a (level, direction) pair to
its alarm property and emits the boolean.  With the two-valued level
and direction enums every pair maps to exactly one of the four alarm
identities, so the defensive unknown-combination branch of the source
is unreachable. -/
def assert_thresholds (level : Level) (direction : Direction)
    (a : Bool) : PubEvent :=
  PubEvent.pubAlarm level direction a

/-- The loop body of `ADCSensor::check_thresholds`, parametrised by the
value member it reads: for each threshold, direction HIGH compares
`value > threshold.value`, direction LOW compares
`value < threshold.value`, and the resulting boolean is emitted
through `assert_thresholds` on both branches. -/
def thresholdEvents (value : Val) (ts : List Threshold) : List PubEvent :=
  if ts.isEmpty then []
  else ts.map fun threshold =>
    if threshold.direction = Direction.HIGH then
      if value.vgt threshold.value then
        assert_thresholds threshold.level threshold.direction true
      else
        assert_thresholds threshold.level threshold.direction false
    else
      if value.vlt threshold.value then
        assert_thresholds threshold.level threshold.direction true
      else
        assert_thresholds threshold.level threshold.direction false

/-- `ADCSensor::check_thresholds` reads the `value` and `thresholds`
members. -/
def ADCSensor.check_thresholds (s : ADCSensor) : List PubEvent :=
  thresholdEvents s.value s.thresholds

/-- `ADCSensor::update_value`: publish the new value on the `Value`
property, store it in the `value` member, then run
`check_thresholds` (which therefore sees exactly the stored value). -/
def ADCSensor.update_value (s : ADCSensor) (new_value : Val) :
    ADCSensor × List PubEvent :=
  let s1 := { s with value := new_value }
  (s1, PubEvent.pubValue new_value :: s1.check_thresholds)

/-- The completion status of the asynchronous line read, as seen by
`handle_response`: the `bad_file_descriptor` teardown outcome, some
other I/O error, or a successfully extracted line. -/
inductive ReadResult
  | badFd
  | ioError
  | line (response : List Char)
  deriving DecidableEq

/-- The environment behaviour during one poll cycle: the read outcome,
whether the unconditional reopen (`open` after `close`) succeeds, and
whether the armed timer's callback observes `operation_aborted`. -/
structure CycleInput where
  read : ReadResult
  reopenOk : Bool
  timerAborted : Bool
  deriving DecidableEq

/-- A C++ exception escaping `handle_response` uncaught. -/
inductive CppExn
  | outOfRange
  deriving DecidableEq

/-- Observable outcome of one `handle_response` invocation. -/
structure StepOut where
  /-- The sensor state after the cycle. -/
  state : ADCSensor
  /-- The `set_property` calls made during the cycle, in order. -/
  events : List PubEvent
  /-- An exception that propagated out of the handler, if any. -/
  uncaught : Option CppExn
  /-- Whether the handle was closed and reopening attempted
  (the `input_dev.close(); open(path...)` lines were reached). -/
  closedHandle : Bool
  /-- The rearm interval if `wait_timer.expires_from_now` ran. -/
  timerArmed : Option Nat
  /-- Whether another `setup_read` will run (timer armed and its
  callback did not observe `operation_aborted`). -/
  nextRead : Bool
  deriving DecidableEq

/-- The tail of `handle_response` after the read/parse branches: the
`err_count == WARN_AFTER_ERROR_COUNT` forced zero publish, then the
unconditional close/reopen (`return` when the reopen fails), then the
`SENSOR_POLL_MS` timer whose callback returns on
`operation_aborted` and otherwise calls `setup_read`. -/
def finish_cycle (s : ADCSensor) (evs : List PubEvent)
    (inp : CycleInput) : StepOut :=
  let sentinel :=
    if s.err_count = WARN_AFTER_ERROR_COUNT then
      let u := s.update_value (Val.num 0)
      (u.1, evs ++ u.2)
    else (s, evs)
  if inp.reopenOk then
    { state := sentinel.1, events := sentinel.2, uncaught := none,
      closedHandle := true, timerArmed := some SENSOR_POLL_MS,
      nextRead := !inp.timerAborted }
  else
    { state := sentinel.1, events := sentinel.2, uncaught := none,
      closedHandle := true, timerArmed := none, nextRead := false }

/-- `ADCSensor::handle_response`, one poll cycle:
`bad_file_descriptor` returns immediately (destruction in progress);
a successful read parses the line with `std::stof`, scales it by
`SENSOR_SCALE_FACTOR` and then by the channel `scale_factor`,
publishes via `update_value` only when the scaled value compares `!=`
to the stored value, and resets `err_count`; `std::invalid_argument`
is caught and counted; `std::out_of_range` is not caught and escapes
the handler; any other read error is counted; all completed paths
fall through to `finish_cycle`. -/
def ADCSensor.handle_response (s : ADCSensor) (inp : CycleInput) :
    StepOut :=
  match inp.read with
  | ReadResult.badFd =>
    { state := s, events := [], uncaught := none, closedHandle := false,
      timerArmed := none, nextRead := false }
  | ReadResult.ioError =>
    finish_cycle { s with err_count := s.err_count + 1 } [] inp
  | ReadResult.line response =>
    match stof response with
    | ParseOutcome.outOfRange =>
      { state := s, events := [], uncaught := some CppExn.outOfRange,
        closedHandle := false, timerArmed := none, nextRead := false }
    | ParseOutcome.invalid =>
      finish_cycle { s with err_count := s.err_count + 1 } [] inp
    | ParseOutcome.ok v =>
      let nvalue := (v.vdiv SENSOR_SCALE_FACTOR).vdiv s.scale_factor
      let upd :=
        if nvalue.vne s.value then s.update_value nvalue else (s, [])
      finish_cycle { upd.1 with err_count := 0 } upd.2 inp

/-- The poll loop over a sequence of cycle environments: each cycle
runs `handle_response`; the loop continues only while no exception
escaped and another read is scheduled. -/
def ADCSensor.run (s : ADCSensor) :
    List CycleInput → ADCSensor × List PubEvent
  | [] => (s, [])
  | i :: rest =>
    let o := s.handle_response i
    if o.uncaught.isNone && o.nextRead then
      let r := ADCSensor.run o.state rest
      (r.1, o.events ++ r.2)
    else (o.state, o.events)

/-- The reactor's dispatch of one channel's cycle in a multi-channel
process: only the addressed channel's state changes. -/
def stepChannel (chans : List ADCSensor) (k : Nat) (inp : CycleInput) :
    List ADCSensor :=
  match chans[k]? with
  | some c => chans.set k (c.handle_response inp).state
  | none => chans

/-- Whether a stored value is a finite number or the NaN sentinel
(the two cases the specification's data-model invariant allows). -/
def isFiniteOrNaN : Val → Bool
  | Val.nan => true
  | Val.num _ => true
  | _ => false

/-- A poll cycle that fails (an I/O error, or a line on which
`std::stof` reports `std::invalid_argument`) while the channel stays
scheduled: the reopen succeeds and the timer is not aborted. -/
def IsFailCycle (i : CycleInput) : Prop :=
  (i.read = ReadResult.ioError ∨
    ∃ cs, i.read = ReadResult.line cs ∧ stof cs = ParseOutcome.invalid) ∧
  i.reopenOk = true ∧ i.timerAborted = false

/-! ### Basic lemmas about the value model -/

theorem Val.vne_nan_left (v : Val) : Val.nan.vne v = true := by
  cases v <;> rfl

theorem Val.vne_nan_right (v : Val) : v.vne Val.nan = true := by
  cases v <;> rfl

theorem Val.vdiv_nan (k : ℚ) : Val.nan.vdiv k = Val.nan := rfl

/-! ### Structure of one completed cycle -/

theorem finish_cycle_spec (s : ADCSensor) (evs : List PubEvent)
    (inp : CycleInput) :
    finish_cycle s evs inp =
      { state := if s.err_count = WARN_AFTER_ERROR_COUNT
            then { s with value := Val.num 0 } else s,
        events := if s.err_count = WARN_AFTER_ERROR_COUNT
            then evs ++ (PubEvent.pubValue (Val.num 0) ::
              thresholdEvents (Val.num 0) s.thresholds)
            else evs,
        uncaught := none,
        closedHandle := true,
        timerArmed := if inp.reopenOk then some SENSOR_POLL_MS else none,
        nextRead := inp.reopenOk && !inp.timerAborted } := by
  simp only [finish_cycle, ADCSensor.update_value, ADCSensor.check_thresholds]
  split_ifs with h1 h2 <;> simp_all

theorem handle_response_ok (s : ADCSensor) (cs : List Char) (v : Val)
    (ro ta : Bool) (h : stof cs = ParseOutcome.ok v) :
    s.handle_response ⟨ReadResult.line cs, ro, ta⟩ =
      (let nvalue := (v.vdiv SENSOR_SCALE_FACTOR).vdiv s.scale_factor
      { state := if nvalue.vne s.value
            then { s with value := nvalue, err_count := 0 }
            else { s with err_count := 0 },
        events := if nvalue.vne s.value
            then PubEvent.pubValue nvalue ::
              thresholdEvents nvalue s.thresholds
            else [],
        uncaught := none,
        closedHandle := true,
        timerArmed := if ro then some SENSOR_POLL_MS else none,
        nextRead := ro && !ta }) := by
  simp only [ADCSensor.handle_response, h, ADCSensor.update_value,
    ADCSensor.check_thresholds, finish_cycle_spec]
  split_ifs with h1 <;>
    simp_all [WARN_AFTER_ERROR_COUNT, finish_cycle_spec]

theorem handle_response_fail (s : ADCSensor) (i : CycleInput)
    (h : IsFailCycle i) :
    s.handle_response i =
      if s.err_count + 1 = WARN_AFTER_ERROR_COUNT then
        { state :=
            { s with err_count := s.err_count + 1, value := Val.num 0 },
          events := PubEvent.pubValue (Val.num 0) ::
            thresholdEvents (Val.num 0) s.thresholds,
          uncaught := none, closedHandle := true,
          timerArmed := some SENSOR_POLL_MS, nextRead := true }
      else
        { state := { s with err_count := s.err_count + 1 },
          events := [], uncaught := none, closedHandle := true,
          timerArmed := some SENSOR_POLL_MS, nextRead := true } := by
  obtain ⟨hr, hro, hta⟩ := h
  obtain ⟨i1, i2, i3⟩ := i
  simp only at hro hta
  subst hro hta
  rcases hr with hio | ⟨cs, hl, hinv⟩
  · simp only at hio
    subst hio
    simp only [ADCSensor.handle_response, finish_cycle_spec,
      ADCSensor.update_value, ADCSensor.check_thresholds]
    split_ifs <;> simp_all
  · simp only at hl
    subst hl
    simp only [ADCSensor.handle_response, hinv, finish_cycle_spec,
      ADCSensor.update_value, ADCSensor.check_thresholds]
    split_ifs <;> simp_all

theorem run_fail_events (inputs : List CycleInput) :
    ∀ t : ADCSensor, (∀ i ∈ inputs, IsFailCycle i) →
    (ADCSensor.run t inputs).2 =
      if t.err_count < WARN_AFTER_ERROR_COUNT ∧
          WARN_AFTER_ERROR_COUNT ≤ t.err_count + inputs.length
      then PubEvent.pubValue (Val.num 0) ::
        thresholdEvents (Val.num 0) t.thresholds
      else [] := by
  induction inputs with
  | nil =>
    intro t _
    simp only [ADCSensor.run, List.length_nil]
    split_ifs with h
    · omega
    · rfl
  | cons i rest ih =>
    intro t hall
    have hi : IsFailCycle i := hall i (List.mem_cons_self i rest)
    have hrest : ∀ j ∈ rest, IsFailCycle j := fun j hj =>
      hall j (List.mem_cons_of_mem i hj)
    by_cases hfire : t.err_count + 1 = WARN_AFTER_ERROR_COUNT
    · simp only [ADCSensor.run, handle_response_fail t i hi, if_pos hfire,
        Option.isNone_none, Bool.true_and, if_true]
      rw [ih _ hrest]
      simp only [List.length_cons]
      split_ifs with h2 h3 h3 <;> first | rfl | omega | simp
    · simp only [ADCSensor.run, handle_response_fail t i hi, if_neg hfire,
        Option.isNone_none, Bool.true_and, if_true]
      rw [ih _ hrest]
      simp only [List.length_cons]
      split_ifs with h2 h3 h3 <;> first | rfl | omega

/-! ### Claims -/

/-- Claim C2: a failing cycle force-publishes the zero sentinel exactly
when the consecutive-error count reaches `WARN_AFTER_ERROR_COUNT` (10):
per cycle, the update fires iff the incremented counter equals 10 (so
neither on the 9th nor on the 11th or later failure); and over a whole
streak of consecutive failures started from a reset counter, the zero
value is published exactly once as soon as the streak reaches length
10, and never for shorter streaks. -/
theorem c2_sentinel_once (s : ADCSensor) (inputs : List CycleInput)
    (h0 : s.err_count = 0) (hf : ∀ i ∈ inputs, IsFailCycle i) :
    (∀ (t : ADCSensor) (i : CycleInput), IsFailCycle i →
      (t.handle_response i).events =
        if t.err_count + 1 = WARN_AFTER_ERROR_COUNT
        then PubEvent.pubValue (Val.num 0) ::
          thresholdEvents (Val.num 0) t.thresholds
        else []) ∧
    (ADCSensor.run s inputs).2 =
      if WARN_AFTER_ERROR_COUNT ≤ inputs.length
      then PubEvent.pubValue (Val.num 0) ::
        thresholdEvents (Val.num 0) s.thresholds
      else [] := by
  constructor
  · intro t i hi
    rw [handle_response_fail t i hi]
    split_ifs with h <;> rfl
  · rw [run_fail_events inputs s hf, h0]
    simp only [WARN_AFTER_ERROR_COUNT, Nat.zero_add]
    split_ifs with ha hb hb <;> first | rfl | omega

/-- Witness for C2 at a concrete channel: ten consecutive read
failures from a fresh counter publish the zero sentinel exactly
once. -/
theorem c2_sentinel_once_witness :
    (∀ (t : ADCSensor) (i : CycleInput), IsFailCycle i →
      (t.handle_response i).events =
        if t.err_count + 1 = WARN_AFTER_ERROR_COUNT
        then PubEvent.pubValue (Val.num 0) ::
          thresholdEvents (Val.num 0) t.thresholds
        else []) ∧
    (ADCSensor.run (ADCSensor.init 1 [])
        (List.replicate 10 ⟨ReadResult.ioError, true, false⟩)).2 =
      if WARN_AFTER_ERROR_COUNT ≤
          (List.replicate 10
            (⟨ReadResult.ioError, true, false⟩ : CycleInput)).length
      then PubEvent.pubValue (Val.num 0) ::
        thresholdEvents (Val.num 0) (ADCSensor.init 1 []).thresholds
      else [] :=
  c2_sentinel_once (ADCSensor.init 1 [])
    (List.replicate 10 ⟨ReadResult.ioError, true, false⟩) rfl
    (fun i hi => by
      rw [List.eq_of_mem_replicate hi]
      exact ⟨Or.inl rfl, rfl, rfl⟩)

/-- Claim C3: threshold evaluation emits one boolean per configured
threshold, computed with the strict comparison fixed by the direction:
HIGH asserts iff `value > trip`, LOW asserts iff `value < trip`, and a
value exactly equal to the trip value asserts neither. -/
theorem c3_strict_threshold_comparison (s : ADCSensor) :
    s.check_thresholds = s.thresholds.map (fun th =>
      PubEvent.pubAlarm th.level th.direction
        (if th.direction = Direction.HIGH then s.value.vgt th.value
        else s.value.vlt th.value)) ∧
    (∀ a b : ℚ, (Val.num a).vgt b = decide (b < a) ∧
      (Val.num a).vlt b = decide (a < b) ∧
      (Val.num b).vgt b = false ∧ (Val.num b).vlt b = false) := by
  constructor
  · by_cases hts : s.thresholds.isEmpty
    · rw [List.isEmpty_iff] at hts
      simp [ADCSensor.check_thresholds, thresholdEvents, hts]
    · simp only [ADCSensor.check_thresholds, thresholdEvents, hts,
        Bool.false_eq_true, if_false]
      refine List.map_congr_left ?_
      intro th _
      by_cases hd : th.direction = Direction.HIGH
      · cases hvg : s.value.vgt th.value <;>
          simp [hd, hvg, assert_thresholds]
      · cases hvl : s.value.vlt th.value <;>
          simp [hd, hvl, assert_thresholds]
  · intro a b
    refine ⟨rfl, rfl, ?_, ?_⟩ <;> simp [Val.vgt, Val.vlt]

/-- Claim C4: a successfully parsed sample resets the
consecutive-error counter to 0, whatever its prior value. -/
theorem c4_success_resets_err_count (s : ADCSensor) (cs : List Char)
    (v : Val) (ro ta : Bool) (h : stof cs = ParseOutcome.ok v) :
    (s.handle_response ⟨ReadResult.line cs, ro, ta⟩).state.err_count
      = 0 := by
  rw [handle_response_ok s cs v ro ta h]
  dsimp only
  split_ifs <;> rfl

/-- Witness for C4: a channel with 37 accumulated failures is reset by
one parseable sample. -/
theorem c4_success_resets_err_count_witness :
    ((ADCSensor.mk 1 [] Val.nan 37).handle_response
        ⟨ReadResult.line ['5', '0', '0', '0'], true, false⟩).state.err_count
      = 0 :=
  c4_success_resets_err_count (ADCSensor.mk 1 [] Val.nan 37)
    ['5', '0', '0', '0'] (Val.num 5000) true false (by decide)

/-- Claim C5 (violated by the code): the handler catches only
`std::invalid_argument`.  A sample whose value exceeds the finite
`float` range ("4" followed by 38 zeros, i.e. 4·10³⁸ > FLT_MAX) makes
`std::stof` throw `std::out_of_range`, which escapes
`handle_response`: the error counter is not incremented, no reopen
happens and no further read is scheduled — the failure escalates
instead of being absorbed locally.  A merely malformed sample is, by
contrast, absorbed into the error counter. -/
theorem c5_out_of_range_escapes_handler :
    stof ('4' :: List.replicate 38 '0') = ParseOutcome.outOfRange ∧
    (ADCSensor.init 1 []).handle_response
        ⟨ReadResult.line ('4' :: List.replicate 38 '0'), true, false⟩ =
      { state := ADCSensor.init 1 [], events := [],
        uncaught := some CppExn.outOfRange, closedHandle := false,
        timerArmed := none, nextRead := false } ∧
    ((ADCSensor.init 1 []).handle_response
        ⟨ReadResult.line ['a', 'b', 'c'], true, false⟩).state.err_count
      = 1 ∧
    ((ADCSensor.init 1 []).handle_response
        ⟨ReadResult.line ['a', 'b', 'c'], true, false⟩).uncaught
      = none := by
  refine ⟨by decide, by decide, by decide, by decide⟩

/-- Claim C1: for every sample line accepted by `std::stof`, any value
handed to the publisher (and hence to threshold evaluation, see C7) is
exactly the parsed value divided by `SENSOR_SCALE_FACTOR` (= 1000) and
then by the channel's `scale_factor`; in particular the raw sample
"5000" on a channel with scale factor 1 publishes exactly 5. -/
theorem c1_exact_scaling (s : ADCSensor) (cs : List Char) (v : Val)
    (ro ta : Bool) (h : stof cs = ParseOutcome.ok v) :
    SENSOR_SCALE_FACTOR = 1000 ∧
    ((s.handle_response ⟨ReadResult.line cs, ro, ta⟩).events = [] ∨
      (s.handle_response ⟨ReadResult.line cs, ro, ta⟩).events =
        PubEvent.pubValue
            ((v.vdiv SENSOR_SCALE_FACTOR).vdiv s.scale_factor) ::
          thresholdEvents
            ((v.vdiv SENSOR_SCALE_FACTOR).vdiv s.scale_factor)
            s.thresholds) ∧
    ((ADCSensor.init 1 []).handle_response
        ⟨ReadResult.line ['5', '0', '0', '0'], true, false⟩).events =
      [PubEvent.pubValue (Val.num 5)] := by
  refine ⟨rfl, ?_, by decide⟩
  rw [handle_response_ok s cs v ro ta h]
  dsimp only
  split_ifs with hv
  · right; rfl
  · left; rfl

/-- Witness for C1 at the spec's concrete example: raw sample "5000",
scale factor 1. -/
theorem c1_exact_scaling_witness :
    SENSOR_SCALE_FACTOR = 1000 ∧
    (((ADCSensor.init 1 []).handle_response
        ⟨ReadResult.line ['5', '0', '0', '0'], true, false⟩).events = [] ∨
      ((ADCSensor.init 1 []).handle_response
          ⟨ReadResult.line ['5', '0', '0', '0'], true, false⟩).events =
        PubEvent.pubValue
            (((Val.num 5000).vdiv SENSOR_SCALE_FACTOR).vdiv
              (ADCSensor.init 1 []).scale_factor) ::
          thresholdEvents
            (((Val.num 5000).vdiv SENSOR_SCALE_FACTOR).vdiv
              (ADCSensor.init 1 []).scale_factor)
            (ADCSensor.init 1 []).thresholds) ∧
    ((ADCSensor.init 1 []).handle_response
        ⟨ReadResult.line ['5', '0', '0', '0'], true, false⟩).events =
      [PubEvent.pubValue (Val.num 5)] :=
  c1_exact_scaling (ADCSensor.init 1 []) ['5', '0', '0', '0']
    (Val.num 5000) true false (by decide)

/-- Claim C6: on a successfully parsed sample the scaled value is
published and threshold-evaluated iff it compares `!=` to the stored
value; when it compares equal, the cycle emits nothing and the stored
value is unchanged. -/
theorem c6_change_suppression (s : ADCSensor) (cs : List Char)
    (v : Val) (ro ta : Bool) (h : stof cs = ParseOutcome.ok v) :
    (s.handle_response ⟨ReadResult.line cs, ro, ta⟩).events =
      (if ((v.vdiv SENSOR_SCALE_FACTOR).vdiv s.scale_factor).vne s.value
      then PubEvent.pubValue
          ((v.vdiv SENSOR_SCALE_FACTOR).vdiv s.scale_factor) ::
        thresholdEvents
          ((v.vdiv SENSOR_SCALE_FACTOR).vdiv s.scale_factor) s.thresholds
      else []) ∧
    (s.handle_response ⟨ReadResult.line cs, ro, ta⟩).state.value =
      (if ((v.vdiv SENSOR_SCALE_FACTOR).vdiv s.scale_factor).vne s.value
      then (v.vdiv SENSOR_SCALE_FACTOR).vdiv s.scale_factor
      else s.value) := by
  rw [handle_response_ok s cs v ro ta h]
  dsimp only
  split_ifs with hv
  · exact ⟨rfl, rfl⟩
  · exact ⟨rfl, rfl⟩

/-- Witness for C6: a repeated sample ("5000" when the stored value is
already 5) is suppressed: no publish, no threshold evaluation. -/
theorem c6_change_suppression_witness :
    ((ADCSensor.mk 1 [] (Val.num 5) 0).handle_response
        ⟨ReadResult.line ['5', '0', '0', '0'], true, false⟩).events =
      (if (((Val.num 5000).vdiv SENSOR_SCALE_FACTOR).vdiv
            (ADCSensor.mk 1 [] (Val.num 5) 0).scale_factor).vne
          (ADCSensor.mk 1 [] (Val.num 5) 0).value
      then PubEvent.pubValue
          (((Val.num 5000).vdiv SENSOR_SCALE_FACTOR).vdiv
            (ADCSensor.mk 1 [] (Val.num 5) 0).scale_factor) ::
        thresholdEvents
          (((Val.num 5000).vdiv SENSOR_SCALE_FACTOR).vdiv
            (ADCSensor.mk 1 [] (Val.num 5) 0).scale_factor)
          (ADCSensor.mk 1 [] (Val.num 5) 0).thresholds
      else []) ∧
    ((ADCSensor.mk 1 [] (Val.num 5) 0).handle_response
        ⟨ReadResult.line ['5', '0', '0', '0'], true, false⟩).state.value =
      (if (((Val.num 5000).vdiv SENSOR_SCALE_FACTOR).vdiv
            (ADCSensor.mk 1 [] (Val.num 5) 0).scale_factor).vne
          (ADCSensor.mk 1 [] (Val.num 5) 0).value
      then ((Val.num 5000).vdiv SENSOR_SCALE_FACTOR).vdiv
        (ADCSensor.mk 1 [] (Val.num 5) 0).scale_factor
      else (ADCSensor.mk 1 [] (Val.num 5) 0).value) :=
  c6_change_suppression (ADCSensor.mk 1 [] (Val.num 5) 0)
    ['5', '0', '0', '0'] (Val.num 5000) true false (by decide)

/-- Claim C7, counterexample: the stored value is not always a finite
number or the NaN sentinel.  `std::stof` accepts the literal "inf", and
one cycle after construction stores positive infinity in the `value`
member. -/
theorem c7_counterexample_infinite_value :
    isFiniteOrNaN ((ADCSensor.init 1 []).handle_response
        ⟨ReadResult.line ['i', 'n', 'f'], true, false⟩).state.value
      = false ∧
    ((ADCSensor.init 1 []).handle_response
        ⟨ReadResult.line ['i', 'n', 'f'], true, false⟩).state.value
      = Val.inf := by
  refine ⟨by decide, by decide⟩

/-- Claim C7 as amended: the value starts as the NaN sentinel, and
every value update is atomic with respect to threshold evaluation — a
cycle either emits nothing, or it publishes exactly the value that
ends up stored and evaluates the thresholds against exactly that
value (which may be an infinity for out-of-range samples). -/
theorem c7_value_update_atomic (s : ADCSensor) (inp : CycleInput)
    (sc : ℚ) (ts : List Threshold) :
    (ADCSensor.init sc ts).value = Val.nan ∧
    ((s.handle_response inp).events = [] ∨
      (s.handle_response inp).events =
        PubEvent.pubValue (s.handle_response inp).state.value ::
          thresholdEvents (s.handle_response inp).state.value
            (s.handle_response inp).state.thresholds) := by
  refine ⟨rfl, ?_⟩
  obtain ⟨r, ro, ta⟩ := inp
  cases r with
  | badFd => left; rfl
  | ioError =>
    simp only [ADCSensor.handle_response, finish_cycle_spec]
    split_ifs with hfire
    · right; simp
    · left; rfl
  | line cs =>
    cases hst : stof cs with
    | outOfRange => left; simp [ADCSensor.handle_response, hst]
    | invalid =>
      simp only [ADCSensor.handle_response, hst, finish_cycle_spec]
      split_ifs with hfire
      · right; simp
      · left; rfl
    | ok v =>
      rw [handle_response_ok s cs v ro ta hst]
      dsimp only
      split_ifs with hv
      · right; rfl
      · left; rfl

theorem handle_response_completes (s : ADCSensor) (inp : CycleInput)
    (h1 : inp.read ≠ ReadResult.badFd)
    (h2 : (s.handle_response inp).uncaught = none) :
    ∃ s1 evs, s.handle_response inp = finish_cycle s1 evs inp := by
  obtain ⟨r, ro, ta⟩ := inp
  cases r with
  | badFd => exact absurd rfl h1
  | ioError =>
    exact ⟨{ s with err_count := s.err_count + 1 }, [], rfl⟩
  | line cs =>
    cases hst : stof cs with
    | outOfRange =>
      simp [ADCSensor.handle_response, hst] at h2
    | invalid =>
      refine ⟨{ s with err_count := s.err_count + 1 }, [], ?_⟩
      simp [ADCSensor.handle_response, hst]
    | ok v =>
      refine ⟨{ (if ((v.vdiv SENSOR_SCALE_FACTOR).vdiv
              s.scale_factor).vne s.value
          then s.update_value
            ((v.vdiv SENSOR_SCALE_FACTOR).vdiv s.scale_factor)
          else (s, [])).1 with err_count := 0 },
        (if ((v.vdiv SENSOR_SCALE_FACTOR).vdiv
              s.scale_factor).vne s.value
          then s.update_value
            ((v.vdiv SENSOR_SCALE_FACTOR).vdiv s.scale_factor)
          else (s, [])).2, ?_⟩
      simp only [ADCSensor.handle_response, hst]

theorem aborted_no_next (s : ADCSensor) (inp : CycleInput)
    (h : inp.timerAborted = true) :
    (s.handle_response inp).nextRead = false := by
  obtain ⟨r, ro, ta⟩ := inp
  simp only at h
  subst h
  cases r with
  | badFd => rfl
  | ioError => simp [ADCSensor.handle_response, finish_cycle_spec]
  | line cs =>
    cases hst : stof cs with
    | outOfRange => simp [ADCSensor.handle_response, hst]
    | invalid =>
      simp [ADCSensor.handle_response, hst, finish_cycle_spec]
    | ok v =>
      rw [handle_response_ok s cs v ro true hst]
      simp

/-- Claim C8: every completed cycle (one that is not the teardown
outcome and is not aborted by the uncaught out-of-range exception of
C5) closes and reopens the device handle; a successful reopen arms
the 500 ms timer, while a failed reopen arms nothing and schedules no
further read — the poll loop for that channel halts permanently —
and stepping one channel never touches a sibling channel's state. -/
theorem c8_close_reopen_schedule (s : ADCSensor) (inp : CycleInput)
    (h1 : inp.read ≠ ReadResult.badFd)
    (h2 : (s.handle_response inp).uncaught = none) :
    (s.handle_response inp).closedHandle = true ∧
    SENSOR_POLL_MS = 500 ∧
    (inp.reopenOk = true →
      (s.handle_response inp).timerArmed = some SENSOR_POLL_MS) ∧
    (inp.reopenOk = false →
      (s.handle_response inp).timerArmed = none ∧
      (s.handle_response inp).nextRead = false ∧
      ∀ rest, ADCSensor.run s (inp :: rest) =
        ((s.handle_response inp).state, (s.handle_response inp).events)) ∧
    (∀ (chans : List ADCSensor) (j k : Nat), j ≠ k →
      (stepChannel chans k inp)[j]? = chans[j]?) := by
  obtain ⟨s1, evs, heq⟩ := handle_response_completes s inp h1 h2
  refine ⟨?_, rfl, ?_, ?_, ?_⟩
  · rw [heq, finish_cycle_spec]
  · intro hro
    rw [heq, finish_cycle_spec]
    simp [hro]
  · intro hro
    refine ⟨?_, ?_, ?_⟩
    · rw [heq, finish_cycle_spec]; simp [hro]
    · rw [heq, finish_cycle_spec]; simp [hro]
    · intro rest
      have hnr : (s.handle_response inp).nextRead = false := by
        rw [heq, finish_cycle_spec]; simp [hro]
      simp only [ADCSensor.run, hnr, Bool.and_false, Bool.false_eq_true,
        if_false]
  · intro chans j k hjk
    unfold stepChannel
    cases hc : chans[k]? with
    | none => rfl
    | some c =>
      exact List.getElem?_set_ne (fun hkj => hjk hkj.symm)

/-- Witness for C8: a failed reopen after an I/O error cycle halts the
channel's scheduling. -/
theorem c8_close_reopen_schedule_witness :
    ((ADCSensor.init 1 []).handle_response
        ⟨ReadResult.ioError, false, false⟩).closedHandle = true ∧
    SENSOR_POLL_MS = 500 ∧
    ((⟨ReadResult.ioError, false, false⟩ : CycleInput).reopenOk = true →
      ((ADCSensor.init 1 []).handle_response
          ⟨ReadResult.ioError, false, false⟩).timerArmed
        = some SENSOR_POLL_MS) ∧
    ((⟨ReadResult.ioError, false, false⟩ : CycleInput).reopenOk = false →
      ((ADCSensor.init 1 []).handle_response
          ⟨ReadResult.ioError, false, false⟩).timerArmed = none ∧
      ((ADCSensor.init 1 []).handle_response
          ⟨ReadResult.ioError, false, false⟩).nextRead = false ∧
      ∀ rest, ADCSensor.run (ADCSensor.init 1 [])
          (⟨ReadResult.ioError, false, false⟩ :: rest) =
        (((ADCSensor.init 1 []).handle_response
            ⟨ReadResult.ioError, false, false⟩).state,
          ((ADCSensor.init 1 []).handle_response
            ⟨ReadResult.ioError, false, false⟩).events)) ∧
    (∀ (chans : List ADCSensor) (j k : Nat), j ≠ k →
      (stepChannel chans k
          ⟨ReadResult.ioError, false, false⟩)[j]? = chans[j]?) :=
  c8_close_reopen_schedule (ADCSensor.init 1 [])
    ⟨ReadResult.ioError, false, false⟩ (by decide) (by decide)

/-- Claim C9: after teardown begins, outstanding callbacks observe
their cancellation-specific outcome and do no further work.  A read
completing with `bad_file_descriptor` publishes nothing, leaves the
state (including the error counter) untouched, performs no reopen,
arms no timer and schedules nothing; a timer callback that observes
`operation_aborted` schedules no further read, so the loop stops with
that cycle's output. -/
theorem c9_teardown_observed (s : ADCSensor) (inp : CycleInput) :
    (inp.read = ReadResult.badFd →
      s.handle_response inp =
        { state := s, events := [], uncaught := none,
          closedHandle := false, timerArmed := none,
          nextRead := false } ∧
      ∀ rest, ADCSensor.run s (inp :: rest) = (s, [])) ∧
    (inp.timerAborted = true →
      (s.handle_response inp).nextRead = false ∧
      ∀ rest, ADCSensor.run s (inp :: rest) =
        ((s.handle_response inp).state,
          (s.handle_response inp).events)) := by
  constructor
  · intro h
    obtain ⟨r, ro, ta⟩ := inp
    simp only at h
    subst h
    exact ⟨rfl, fun rest => rfl⟩
  · intro h
    have hnr := aborted_no_next s inp h
    refine ⟨hnr, fun rest => ?_⟩
    simp only [ADCSensor.run, hnr, Bool.and_false, Bool.false_eq_true,
      if_false]

/-- Witness for C9: a cycle whose read observes teardown and whose
timer callback observes cancellation. -/
theorem c9_teardown_observed_witness :
    ((⟨ReadResult.badFd, true, true⟩ : CycleInput).read
        = ReadResult.badFd →
      (ADCSensor.init 1 []).handle_response
          ⟨ReadResult.badFd, true, true⟩ =
        { state := ADCSensor.init 1 [], events := [], uncaught := none,
          closedHandle := false, timerArmed := none,
          nextRead := false } ∧
      ∀ rest, ADCSensor.run (ADCSensor.init 1 [])
          (⟨ReadResult.badFd, true, true⟩ :: rest)
        = (ADCSensor.init 1 [], [])) ∧
    ((⟨ReadResult.badFd, true, true⟩ : CycleInput).timerAborted = true →
      ((ADCSensor.init 1 []).handle_response
          ⟨ReadResult.badFd, true, true⟩).nextRead = false ∧
      ∀ rest, ADCSensor.run (ADCSensor.init 1 [])
          (⟨ReadResult.badFd, true, true⟩ :: rest) =
        (((ADCSensor.init 1 []).handle_response
            ⟨ReadResult.badFd, true, true⟩).state,
          ((ADCSensor.init 1 []).handle_response
            ⟨ReadResult.badFd, true, true⟩).events)) :=
  c9_teardown_observed (ADCSensor.init 1 [])
    ⟨ReadResult.badFd, true, true⟩

/-- Claim C10: because `value` is initialised to NaN and suppression
uses IEEE `!=`, the first successfully parsed sample is always
published (whatever its value), and a sample that parses to NaN is
re-published on every cycle, against any stored value. -/
theorem c10_nan_always_republishes (s s2 : ADCSensor)
    (cs cs2 : List Char) (v : Val) (ro ta ro2 ta2 : Bool)
    (h1 : s.value = Val.nan) (h2 : stof cs = ParseOutcome.ok v)
    (h3 : stof cs2 = ParseOutcome.ok Val.nan) :
    (s.handle_response ⟨ReadResult.line cs, ro, ta⟩).events =
      PubEvent.pubValue
          ((v.vdiv SENSOR_SCALE_FACTOR).vdiv s.scale_factor) ::
        thresholdEvents
          ((v.vdiv SENSOR_SCALE_FACTOR).vdiv s.scale_factor)
          s.thresholds ∧
    (s2.handle_response ⟨ReadResult.line cs2, ro2, ta2⟩).events =
      PubEvent.pubValue Val.nan ::
        thresholdEvents Val.nan s2.thresholds := by
  constructor
  · rw [handle_response_ok s cs v ro ta h2]
    dsimp only
    rw [h1]
    simp [Val.vne_nan_right]
  · rw [handle_response_ok s2 cs2 Val.nan ro2 ta2 h3]
    dsimp only
    simp [Val.vdiv_nan, Val.vne_nan_left]

/-- Witness for C10: the first sample "5000" publishes from the NaN
initial state, and the raw sample "nan" re-publishes against a stored
finite value 3. -/
theorem c10_nan_always_republishes_witness :
    ((ADCSensor.init 1 []).handle_response
        ⟨ReadResult.line ['5', '0', '0', '0'], true, false⟩).events =
      PubEvent.pubValue
          (((Val.num 5000).vdiv SENSOR_SCALE_FACTOR).vdiv
            (ADCSensor.init 1 []).scale_factor) ::
        thresholdEvents
          (((Val.num 5000).vdiv SENSOR_SCALE_FACTOR).vdiv
            (ADCSensor.init 1 []).scale_factor)
          (ADCSensor.init 1 []).thresholds ∧
    ((ADCSensor.mk 1 [] (Val.num 3) 0).handle_response
        ⟨ReadResult.line ['n', 'a', 'n'], true, false⟩).events =
      PubEvent.pubValue Val.nan ::
        thresholdEvents Val.nan (ADCSensor.mk 1 [] (Val.num 3) 0).thresholds :=
  c10_nan_always_republishes (ADCSensor.init 1 [])
    (ADCSensor.mk 1 [] (Val.num 3) 0) ['5', '0', '0', '0']
    ['n', 'a', 'n'] (Val.num 5000) true false true false rfl
    (by decide) (by decide)
